import Mathlib

/-!
Verification of the connection registry and session router of
`backend/app/websocket.py` (GmailAgenticChatbot).

The module-level Python dictionaries

  `active_connections : {user_id: {chat_id: websocket}}`
  `connection_metadata : {websocket_id: {"user_id": str, "chat_id": str}}`

are modelled as association lists with Python-dict update semantics
(update in place, append when the key is new, `del` removes the key).
Websocket handles are modelled by their `websocket_id` (a `Nat`), users
and chats by `String`.
-/

/-- Python `d.get(k)` / `k in d` on an association list: the value of the
first entry whose key is `k`. -/
def dlookup {K V : Type} [DecidableEq K] (k : K) : List (K × V) → Option V
  | [] => none
  | (k', v) :: t => if k' = k then some v else dlookup k t

/-- Python `d[k] = v`: replace the value of an existing key in place,
append the pair at the end when the key is absent. -/
def dinsert {K V : Type} [DecidableEq K] (k : K) (v : V) : List (K × V) → List (K × V)
  | [] => [(k, v)]
  | (k', v') :: t => if k' = k then (k, v) :: t else (k', v') :: dinsert k v t

/-- Python `del d[k]`: remove every entry whose key is `k`. -/
def derase {K V : Type} [DecidableEq K] (k : K) : List (K × V) → List (K × V)
  | [] => []
  | (k', v') :: t => if k' = k then derase k t else (k', v') :: derase k t

theorem dlookup_dinsert_self {K V : Type} [DecidableEq K] (k : K) (v : V)
    (l : List (K × V)) : dlookup k (dinsert k v l) = some v := by
  induction l with
  | nil => simp [dinsert, dlookup]
  | cons p t ih =>
    by_cases h : p.1 = k
    · simp [dinsert, dlookup, h]
    · simp [dinsert, dlookup, h, ih]

theorem dlookup_dinsert_ne {K V : Type} [DecidableEq K] {k k' : K} (v : V)
    (l : List (K × V)) (h : k' ≠ k) :
    dlookup k' (dinsert k v l) = dlookup k' l := by
  have hk : ¬ (k = k') := fun hh => h hh.symm
  induction l with
  | nil => simp [dinsert, dlookup, hk]
  | cons p t ih =>
    by_cases hp : p.1 = k
    · simp [dinsert, dlookup, hp, hk, h]
    · by_cases hp' : p.1 = k'
      · simp [dinsert, dlookup, hp, hp', hk, h]
      · simp [dinsert, dlookup, hp, hp', ih]

theorem dlookup_derase_self {K V : Type} [DecidableEq K] (k : K)
    (l : List (K × V)) : dlookup k (derase k l) = (none : Option V) := by
  induction l with
  | nil => simp [derase, dlookup]
  | cons p t ih =>
    by_cases h : p.1 = k
    · simp [derase, h, ih]
    · simp [derase, dlookup, h, ih]

theorem dlookup_derase_ne {K V : Type} [DecidableEq K] {k k' : K}
    (l : List (K × V)) (h : k' ≠ k) :
    dlookup k' (derase k l) = dlookup k' l := by
  have hk : ¬ (k = k') := fun hh => h hh.symm
  induction l with
  | nil => simp [derase]
  | cons p t ih =>
    by_cases hp : p.1 = k
    · simp [derase, dlookup, hp, hk, ih]
    · by_cases hp' : p.1 = k'
      · simp [derase, dlookup, hp, hp', hk, h, ih]
      · simp [derase, dlookup, hp, hp', ih]

theorem dinsert_ne_nil {K V : Type} [DecidableEq K] (k : K) (v : V)
    (l : List (K × V)) : dinsert k v l ≠ [] := by
  cases l with
  | nil => simp [dinsert]
  | cons p t =>
    by_cases h : p.1 = k <;> simp [dinsert, h]

/-- The two module-level dictionaries of `websocket.py` (lines 15-16). -/
structure Registry where
  active_connections : List (String × List (String × Nat))
  connection_metadata : List (Nat × (String × String))
deriving DecidableEq

/-- Initial module state: both dictionaries empty. -/
def Registry.empty : Registry := ⟨[], []⟩

/-- Lines 77-86: store the connection under both maps.

    if user_id not in active_connections: active_connections[user_id] = {}
    active_connections[user_id][chat_id] = websocket
    connection_metadata[websocket_id] = {"user_id": user_id, "chat_id": chat_id}
-/
def Registry.bind (s : Registry) (user chat : String) (ws : Nat) : Registry :=
  let inner := (dlookup user s.active_connections).getD []
  { active_connections := dinsert user (dinsert chat ws inner) s.active_connections,
    connection_metadata := dinsert ws (user, chat) s.connection_metadata }

/-- Lines 114-123, the body of the chat-switch branch (entered when the
received chat id is truthy and differs from the handler's current
`chat_id`).  `user` and `oldChat` are the handler's local variables,
which mirror `connection_metadata[websocket_id]` throughout the loop.

    if chat_id in active_connections.get(user_id, {}):
        del active_connections[user_id][chat_id]
    chat_id = received_chat_id
    if user_id not in active_connections: active_connections[user_id] = {}
    active_connections[user_id][chat_id] = websocket
    connection_metadata[websocket_id]["chat_id"] = chat_id
-/
def Registry.chatSwitch (s : Registry) (ws : Nat) (user oldChat newChat : String) :
    Registry :=
  let ac₁ :=
    match dlookup user s.active_connections with
    | some inner =>
        if (dlookup oldChat inner).isSome then
          dinsert user (derase oldChat inner) s.active_connections
        else s.active_connections
    | none => s.active_connections
  let inner₂ := (dlookup user ac₁).getD []
  { active_connections := dinsert user (dinsert newChat ws inner₂) ac₁,
    connection_metadata := dinsert ws (user, newChat) s.connection_metadata }

/-- The registry-level view of the chat-switch path: the connection's
current (user, chat) is read from the reverse map (which mirrors the
handler's locals); nothing happens when the new chat equals the current
one (line 111) or when the connection has no metadata entry (in the
server this cannot occur: the switch runs only between bind and
teardown). -/
def Registry.rebind (s : Registry) (ws : Nat) (newChat : String) : Registry :=
  match dlookup ws s.connection_metadata with
  | none => s
  | some (user, cur) =>
      if newChat = cur then s else s.chatSwitch ws user cur newChat

/-- Lines 192-212 (and the identical lines 239-251): teardown.

    if websocket_id in connection_metadata:
        stored_user_id, stored_chat_id = ...
        if stored_user_id in active_connections and
           stored_chat_id in active_connections[stored_user_id]:
            del active_connections[stored_user_id][stored_chat_id]
            if not active_connections[stored_user_id]:
                del active_connections[stored_user_id]
        del connection_metadata[websocket_id]
-/
def Registry.unbind (s : Registry) (ws : Nat) : Registry :=
  match dlookup ws s.connection_metadata with
  | none => s
  | some (user, chat) =>
      let ac :=
        match dlookup user s.active_connections with
        | some inner =>
            if (dlookup chat inner).isSome then
              let inner' := derase chat inner
              if inner' = [] then derase user s.active_connections
              else dinsert user inner' s.active_connections
            else s.active_connections
        | none => s.active_connections
      { active_connections := ac,
        connection_metadata := derase ws s.connection_metadata }

/-- One registry mutation, for quantifying over operation sequences. -/
inductive RegOp where
  | bind (user chat : String) (ws : Nat)
  | rebind (ws : Nat) (newChat : String)
  | unbind (ws : Nat)
deriving DecidableEq

def applyOp (s : Registry) : RegOp → Registry
  | .bind user chat ws => s.bind user chat ws
  | .rebind ws newChat => s.rebind ws newChat
  | .unbind ws => s.unbind ws

/-- The registry state after a sequence of operations from the initial
(empty) module state. -/
def runOps (ops : List RegOp) : Registry :=
  ops.foldl applyOp Registry.empty

/-- An outbound JSON frame `{reply, error, chatId}`. -/
structure Frame where
  reply : List String
  error : Bool
  chatId : String
deriving DecidableEq

/-- Lines 58-71: choose the effective chat id from the handshake frame's
`chatId` field.  `none` models an absent field; Python's `elif
received_chat_id:` is truthiness, so the empty string also falls through
to allocation.  `freshId` stands for the value
`generate_unique_chat_id(user_id)` would produce. -/
def effectiveChatId (received : Option String) (freshId : String) : String :=
  match received with
  | none => freshId
  | some rc => if rc = "new" then freshId else if rc = "" then freshId else rc

/-- Lines 91-95: the welcome frame sent after a successful handshake. -/
def welcomeFrame (chatId : String) : Frame :=
  { reply := ["Connected to chat. You can now ask questions about your emails!"],
    error := false,
    chatId := chatId }

/-- The value returned by a successful `query_mem0` call: either a dict
with a `"reply"` list, or anything else (rendered with `str`). -/
inductive Mem0Data where
  | withReply (l : List String)
  | other (s : String)
deriving DecidableEq

/-- Lines 145-148: extract the response text from the mem0 result. -/
def extractText : Mem0Data → String
  | .withReply [] => "No response generated."
  | .withReply (h :: _) => h
  | .other s => s

/-- Control decision of one receive-loop iteration: keep looping
(`continue` / fall through) or leave the loop (`break`). -/
inductive LoopCtl where
  | cont
  | brk
deriving DecidableEq

/-- Result of one receive-loop iteration: the registry afterwards, the
handler's (possibly switched) current `chat_id`, the frame handed to
`safe_send_message` (if any), and the control decision. -/
structure StepOut where
  registry : Registry
  chatId : String
  sent : Option Frame
  ctl : LoopCtl
deriving DecidableEq

/-- Lines 108-126: the chat-update prelude of a loop iteration.  A switch
happens only when the received chat id is truthy (present and non-empty)
and differs from the current one. -/
def switchPhase (s : Registry) (ws : Nat) (user chatId : String)
    (recvChat : Option String) : Registry × String :=
  match recvChat with
  | some rc =>
      if rc ≠ "" then
        if rc ≠ chatId then (s.chatSwitch ws user chatId rc, rc) else (s, chatId)
      else (s, chatId)
  | none => (s, chatId)

/-- Lines 100-186: one iteration of the receive loop, after
`receive_json` yielded a frame with body `msg` and chat field `recvChat`.
`wsOpen` is the value of `is_websocket_open(websocket)` at line 133, and
`query` the outcome of the awaited `query_mem0` call (`Except.error e`
models a raised exception with text `e`).  Saving the transcript (line
154) swallows its own errors and does not touch the registry, so it has
no observable effect here. -/
def loopStep (s : Registry) (ws : Nat) (user chatId : String)
    (msg : Option String) (recvChat : Option String)
    (wsOpen : Bool) (query : Except String Mem0Data) : StepOut :=
  let p := switchPhase s ws user chatId recvChat
  match msg with
  | none => ⟨p.1, p.2, none, .cont⟩
  | some m =>
      if m = "" then ⟨p.1, p.2, none, .cont⟩
      else if wsOpen = false then ⟨p.1, p.2, none, .brk⟩
      else
        match query with
        | .ok d => ⟨p.1, p.2, some ⟨[extractText d], false, p.2⟩, .cont⟩
        | .error e =>
            ⟨p.1, p.2, some ⟨["Error processing your request: " ++ e], true, p.2⟩, .cont⟩

/-- How the connection handler leaves the handshake stage. -/
inductive HandshakeOutcome where
  /-- `await websocket.close(code=1008)` then `return` (lines 50-52). -/
  | policyClose
  /-- The generic `except Exception` path (lines 215-252): a best-effort
  error frame (present when the socket was open), cleanup, return; the
  server never calls `close` here. -/
  | errorClose (errFrame : Option Frame)
  /-- Registry bound, welcome frame sent, steady-state loop entered. -/
  | active (chatId : String) (welcome : Frame)
deriving DecidableEq

/-- Lines 46-98 together with the surrounding exception handlers: the
handshake stage of `websocket_endpoint`.  `token` is `data.get("jwt_token")`
(`none` when absent; the empty string is falsy at line 50 too), `auth`
models `decode_jwt_token` (an `Except.error e` is a raised exception),
`freshId` the chat id `generate_unique_chat_id` would allocate, and
`wsOpen` the socket state seen by `safe_send_message` in the error path.
When `auth` raises, control jumps to line 215: an error frame
`{"reply": ["Connection error: " + e], "error": true, "chatId": "unknown"}`
is attempted (`chat_id or user_id or "unknown"` with both still `None`),
then the cleanup block runs, which is exactly `Registry.unbind`. -/
def handshake (s : Registry) (ws : Nat) (token : Option String)
    (auth : String → Except String String) (freshId : String)
    (frameChatId : Option String) (wsOpen : Bool) :
    Registry × HandshakeOutcome :=
  match token with
  | none => (s, .policyClose)
  | some t =>
      if t = "" then (s, .policyClose)
      else
        match auth t with
        | .error e =>
            let ef : Option Frame :=
              if wsOpen then some ⟨["Connection error: " ++ e], true, "unknown"⟩
              else none
            (s.unbind ws, .errorClose ef)
        | .ok userId =>
            let chatId := effectiveChatId frameChatId freshId
            (s.bind userId chatId ws, .active chatId (welcomeFrame chatId))

/-- Lines 271-276: `is_websocket_open`.  `clientState` is
`websocket.client_state.value`; `none` models the attribute access
itself raising, which the bare `except` turns into `False`. -/
def is_websocket_open (clientState : Option Int) : Bool :=
  match clientState with
  | some v => v == 1
  | none => false

/-- Lines 278-290: `safe_send_message`.  `sendFault` tells whether the
awaited `websocket.send_text` call would raise.  The result is the pair
(write attempted, returned boolean); the function itself is total, which
is the `never raises` part of the contract. -/
def safe_send_message (clientState : Option Int) (sendFault : Bool) : Bool × Bool :=
  if is_websocket_open clientState = false then (false, false)
  else if sendFault then (true, false)
  else (true, true)

/-- Lines 292-296: `generate_unique_chat_id`.  `timestamp` is
`int(time.time())` and `uuidPart` the first eight characters of
`str(uuid.uuid4())`, both read from the environment at call time. -/
def generate_unique_chat_id (user : String) (timestamp : Nat) (uuidPart : String) :
    String :=
  "chat_" ++ user ++ "_" ++ toString timestamp ++ "_" ++ uuidPart

theorem Registry.unbind_of_none (s : Registry) (ws : Nat)
    (h : dlookup ws s.connection_metadata = none) : s.unbind ws = s := by
  simp [Registry.unbind, h]

theorem Registry.unbind_metadata_none (s : Registry) (ws : Nat) :
    dlookup ws (s.unbind ws).connection_metadata = none := by
  cases hm : dlookup ws s.connection_metadata with
  | none => rw [s.unbind_of_none ws hm]; exact hm
  | some p => simp [Registry.unbind, hm, dlookup_derase_self]

/-- C5: teardown on a never-bound (or already torn down) connection is a
no-op, and running the teardown block twice for the same connection
leaves the registry exactly as running it once: the cleanup code is
guarded by `if websocket_id in connection_metadata` and the first run
removes that key. -/
theorem unbind_idempotent :
    (∀ (s : Registry) (ws : Nat),
      dlookup ws s.connection_metadata = none → s.unbind ws = s) ∧
    (∀ (s : Registry) (ws : Nat), (s.unbind ws).unbind ws = s.unbind ws) :=
  ⟨fun s ws h => s.unbind_of_none ws h,
   fun s ws => (s.unbind ws).unbind_of_none ws (s.unbind_metadata_none ws)⟩

/-- Witness for C5 at concrete inputs: teardown of a never-bound
connection on the empty registry, and double teardown after one bind. -/
theorem unbind_idempotent_witness :
    Registry.empty.unbind 5 = Registry.empty ∧
    ((Registry.empty.bind "u1" "c1" 1).unbind 1).unbind 1
      = (Registry.empty.bind "u1" "c1" 1).unbind 1 :=
  ⟨unbind_idempotent.1 Registry.empty 5 rfl,
   unbind_idempotent.2 (Registry.empty.bind "u1" "c1" 1) 1⟩

/-- C8: the Delivery Guard returns a boolean and never raises (it is a
total function): when the liveness predicate reports the socket not
open, it returns failure without attempting the write; a fault in the
actual transmission also yields `false` instead of an exception, and a
write is only ever attempted on a live socket. -/
theorem safe_send_contract (clientState : Option Int) (sendFault : Bool) :
    (is_websocket_open clientState = false →
      safe_send_message clientState sendFault = (false, false)) ∧
    (sendFault = true → (safe_send_message clientState sendFault).2 = false) ∧
    ((safe_send_message clientState sendFault).1 = true →
      is_websocket_open clientState = true) := by
  cases hcs : is_websocket_open clientState <;>
    cases sendFault <;> simp [safe_send_message, hcs]

/-- Witness for C8: a closed socket (attribute access raising, hence
liveness `false`) gives `(false, false)`; a live socket with a faulting
transmission returns `false` without raising. -/
theorem safe_send_contract_witness :
    safe_send_message none false = (false, false) ∧
    (safe_send_message (some 1) true).2 = false :=
  ⟨(safe_send_contract none false).1 rfl,
   (safe_send_contract (some 1) true).2.1 rfl⟩

/-- C2: when the connection is live and the external `query_mem0` call
raises, the loop iteration hands `safe_send_message` a reply frame with
`error = true` and the human-readable text
`"Error processing your request: " + str(e)` tagged with the current
chat id, and then continues the receive loop (the connection is not
closed, so a subsequent message is accepted). -/
theorem query_failure_keeps_connection (s : Registry) (ws : Nat)
    (user chat m : String) (recvChat : Option String) (e : String)
    (h : m ≠ "") :
    (loopStep s ws user chat (some m) recvChat true (Except.error e)).sent
      = some ⟨["Error processing your request: " ++ e], true,
          (loopStep s ws user chat (some m) recvChat true (Except.error e)).chatId⟩ ∧
    (loopStep s ws user chat (some m) recvChat true (Except.error e)).ctl
      = LoopCtl.cont := by
  simp [loopStep, h]

/-- Witness for C2: a concrete failing query on a live connection. -/
theorem query_failure_keeps_connection_witness :
    (loopStep Registry.empty 1 "u1" "c1" (some "hello") none true
        (Except.error "boom")).sent
      = some ⟨["Error processing your request: boom"], true,
          (loopStep Registry.empty 1 "u1" "c1" (some "hello") none true
            (Except.error "boom")).chatId⟩ ∧
    (loopStep Registry.empty 1 "u1" "c1" (some "hello") none true
        (Except.error "boom")).ctl = LoopCtl.cont :=
  query_failure_keeps_connection Registry.empty 1 "u1" "c1" "hello" none "boom"
    (by decide)

theorem switchPhase_same (s : Registry) (ws : Nat) (user chat : String) :
    switchPhase s ws user chat (some chat) = (s, chat) := by
  by_cases h : chat = "" <;> simp [switchPhase, h]

/-- C6: a frame whose `chatId` equals the connection's current chat
performs no rebind: the registry and the handler's current chat are left
byte-identical (the switch branch at line 111 is not entered), and the
iteration still succeeds: a non-empty message on a live connection with
a successful query produces a normal reply and the loop continues. -/
theorem rebind_same_chat_noop (s : Registry) (ws : Nat) (user chat : String)
    (msg : Option String) (wsOpen : Bool) (query : Except String Mem0Data) :
    (loopStep s ws user chat msg (some chat) wsOpen query).registry = s ∧
    (loopStep s ws user chat msg (some chat) wsOpen query).chatId = chat ∧
    (∀ m d, msg = some m → m ≠ "" → wsOpen = true → query = Except.ok d →
      (loopStep s ws user chat msg (some chat) wsOpen query).ctl = LoopCtl.cont ∧
      (loopStep s ws user chat msg (some chat) wsOpen query).sent
        = some ⟨[extractText d], false, chat⟩) := by
  have hp := switchPhase_same s ws user chat
  refine ⟨?_, ?_, ?_⟩
  · cases msg with
    | none => simp [loopStep, hp]
    | some m =>
        by_cases hm : m = "" <;> cases wsOpen <;>
          cases query <;> simp [loopStep, hp, hm]
  · cases msg with
    | none => simp [loopStep, hp]
    | some m =>
        by_cases hm : m = "" <;> cases wsOpen <;>
          cases query <;> simp [loopStep, hp, hm]
  · intro m d hmsg hm hws hq
    subst hmsg hws hq
    simp [loopStep, hp, hm]

/-- Witness for C6: a concrete iteration carrying the current chat id. -/
theorem rebind_same_chat_noop_witness :
    (loopStep (Registry.empty.bind "u1" "c1" 1) 1 "u1" "c1" (some "hi")
        (some "c1") true (Except.ok (Mem0Data.withReply ["ok"]))).registry
      = Registry.empty.bind "u1" "c1" 1 ∧
    (loopStep (Registry.empty.bind "u1" "c1" 1) 1 "u1" "c1" (some "hi")
        (some "c1") true (Except.ok (Mem0Data.withReply ["ok"]))).sent
      = some ⟨["ok"], false, "c1"⟩ :=
  ⟨(rebind_same_chat_noop (Registry.empty.bind "u1" "c1" 1) 1 "u1" "c1"
      (some "hi") true (Except.ok (Mem0Data.withReply ["ok"]))).1,
   ((rebind_same_chat_noop (Registry.empty.bind "u1" "c1" 1) 1 "u1" "c1"
      (some "hi") true (Except.ok (Mem0Data.withReply ["ok"]))).2.2 "hi"
        (Mem0Data.withReply ["ok"]) rfl (by decide) rfl rfl).2⟩

/-- C3 counterexample: a handshake frame carrying the present but empty
string as `chatId` is neither absent nor the literal `"new"`, yet it is
NOT reused as-is: Python's `elif received_chat_id:` is falsy on `""`,
so a fresh id is allocated instead. -/
theorem empty_chat_id_not_resumed :
    effectiveChatId (some "") "chat_u1_5_aaaaaaaa" = "chat_u1_5_aaaaaaaa" ∧
    ("" : String) ≠ "new" ∧ ("chat_u1_5_aaaaaaaa" : String) ≠ "" := by
  decide

def HandshakeOutcome.isActive : HandshakeOutcome → Bool
  | .active _ _ => true
  | _ => false

/-- C3 (amended): the effective chat id is freshly allocated iff the
frame's `chatId` is absent, the literal `"new"`, or the empty string;
any other string is reused as-is; and a successful handshake binds the
effective id and sends a welcome frame carrying exactly that id. -/
theorem chat_id_determination (freshId rc : String) (s : Registry) (ws : Nat)
    (t user : String) (auth : String → Except String String)
    (frameChatId : Option String) (wsOpen : Bool) :
    effectiveChatId none freshId = freshId ∧
    effectiveChatId (some "new") freshId = freshId ∧
    effectiveChatId (some "") freshId = freshId ∧
    (rc ≠ "new" → rc ≠ "" → effectiveChatId (some rc) freshId = rc) ∧
    (t ≠ "" → auth t = Except.ok user →
      handshake s ws (some t) auth freshId frameChatId wsOpen
        = (s.bind user (effectiveChatId frameChatId freshId) ws,
           HandshakeOutcome.active (effectiveChatId frameChatId freshId)
             (welcomeFrame (effectiveChatId frameChatId freshId)))) ∧
    (welcomeFrame (effectiveChatId frameChatId freshId)).chatId
      = effectiveChatId frameChatId freshId := by
  refine ⟨rfl, rfl, rfl, ?_, ?_, rfl⟩
  · intro h1 h2
    simp [effectiveChatId, h1, h2]
  · intro ht hauth
    simp [handshake, ht, hauth]

/-- Witness for C3 (amended): a concrete resuming handshake with
`chatId = "c7"` and a concrete allocating one with `chatId = "new"`. -/
theorem chat_id_determination_witness :
    effectiveChatId (some "c7") "chat_u1_5_aaaaaaaa" = "c7" ∧
    handshake Registry.empty 4 (some "tok") (fun _ => Except.ok "u1")
        "chat_u1_5_aaaaaaaa" (some "new") true
      = (Registry.empty.bind "u1" "chat_u1_5_aaaaaaaa" 4,
         HandshakeOutcome.active "chat_u1_5_aaaaaaaa"
           (welcomeFrame "chat_u1_5_aaaaaaaa")) :=
  ⟨(chat_id_determination "chat_u1_5_aaaaaaaa" "c7" Registry.empty 4 "tok" "u1"
      (fun _ => Except.ok "u1") (some "c7") true).2.2.2.1 (by decide) (by decide),
   (chat_id_determination "chat_u1_5_aaaaaaaa" "c7" Registry.empty 4 "tok" "u1"
      (fun _ => Except.ok "u1") (some "new") true).2.2.2.2.1 (by decide) rfl⟩

/-- C4 counterexample: a present-but-invalid credential (here the
resolver raises `"bad signature"`) does NOT close the connection with a
policy-violation code: control falls into the generic `except Exception`
block, which attempts a `"Connection error: ..."` frame and returns
without any `close(code=1008)` call; only the missing-token branch at
line 50 closes with 1008. -/
theorem invalid_credential_not_policy_closed :
    (handshake Registry.empty 7 (some "badtoken")
        (fun _ => Except.error "bad signature") "chat_u1_5_aaaaaaaa" none
        true).2
      = HandshakeOutcome.errorClose
          (some ⟨["Connection error: bad signature"], true, "unknown"⟩) ∧
    (handshake Registry.empty 7 (some "badtoken")
        (fun _ => Except.error "bad signature") "chat_u1_5_aaaaaaaa" none
        true).2
      ≠ HandshakeOutcome.policyClose := by
  decide

/-- C4 (amended): every failed handshake leaves the registry untouched
(given the handler's fresh `websocket_id`, which has no metadata entry
yet) and never reaches the Active state; the missing (or falsy-empty)
credential is closed with the policy-violation code 1008, while an
invalid credential leaves through the generic error path (a best-effort
error frame, no policy-violation close). -/
theorem handshake_failure_safe (s : Registry) (ws : Nat) (token : Option String)
    (auth : String → Except String String) (freshId : String)
    (frameChatId : Option String) (wsOpen : Bool)
    (hfresh : dlookup ws s.connection_metadata = none) :
    (token = none →
      handshake s ws token auth freshId frameChatId wsOpen
        = (s, HandshakeOutcome.policyClose)) ∧
    (handshake s ws (some "") auth freshId frameChatId wsOpen
        = (s, HandshakeOutcome.policyClose)) ∧
    (∀ t e, token = some t → t ≠ "" → auth t = Except.error e →
      (handshake s ws token auth freshId frameChatId wsOpen).1 = s ∧
      (handshake s ws token auth freshId frameChatId wsOpen).2
        = HandshakeOutcome.errorClose
            (if wsOpen then some ⟨["Connection error: " ++ e], true, "unknown"⟩
             else none) ∧
      ((handshake s ws token auth freshId frameChatId wsOpen).2).isActive
        = false) := by
  refine ⟨?_, ?_, ?_⟩
  · intro h
    subst h
    rfl
  · simp [handshake]
  · intro t e htok ht hauth
    subst htok
    simp [handshake, ht, hauth, HandshakeOutcome.isActive,
      s.unbind_of_none ws hfresh]

/-- Witness for C4 (amended): a concrete invalid-token handshake leaves
the empty registry unchanged and does not reach Active. -/
theorem handshake_failure_safe_witness :
    (handshake Registry.empty 3 (some "tok") (fun _ => Except.error "expired")
        "chat_u1_5_aaaaaaaa" none false).1 = Registry.empty ∧
    ((handshake Registry.empty 3 (some "tok") (fun _ => Except.error "expired")
        "chat_u1_5_aaaaaaaa" none false).2).isActive = false :=
  ⟨((handshake_failure_safe Registry.empty 3 (some "tok")
      (fun _ => Except.error "expired") "chat_u1_5_aaaaaaaa" none false
      rfl).2.2 "tok" "expired" rfl (by decide) rfl).1,
   ((handshake_failure_safe Registry.empty 3 (some "tok")
      (fun _ => Except.error "expired") "chat_u1_5_aaaaaaaa" none false
      rfl).2.2 "tok" "expired" rfl (by decide) rfl).2.2⟩

/-- The two-directional consistency invariant I1 between the forward map
`active_connections` and the reverse map `connection_metadata`. -/
def I1 (s : Registry) : Prop :=
  (∀ (ws : Nat) (user chat : String),
    dlookup ws s.connection_metadata = some (user, chat) →
    dlookup chat ((dlookup user s.active_connections).getD []) = some ws) ∧
  (∀ (user : String) (inner : List (String × Nat)) (chat : String) (ws : Nat),
    dlookup user s.active_connections = some inner →
    dlookup chat inner = some ws →
    dlookup ws s.connection_metadata = some (user, chat))

/-- C1 fails on the code: after `bind(u1, c1, 1)` is superseded by
`bind(u1, c1, 2)` (a second connection for the same user and chat, lines
77-86 run by the second handler), the superseded connection's reverse
entry `connection_metadata[1] = (u1, c1)` is NOT dropped, while the
forward map now holds `active_connections[u1][c1] = 2`: the two maps are
observably out of sync and I1 is violated. -/
theorem supersede_breaks_I1 :
    dlookup 1 ((Registry.empty.bind "u1" "c1" 1).bind "u1" "c1" 2).connection_metadata
      = some ("u1", "c1") ∧
    dlookup "c1"
        ((dlookup "u1"
          ((Registry.empty.bind "u1" "c1" 1).bind "u1" "c1" 2).active_connections).getD [])
      = some 2 ∧
    ¬ I1 ((Registry.empty.bind "u1" "c1" 1).bind "u1" "c1" 2) := by
  refine ⟨by decide, by decide, fun h => ?_⟩
  have h1 := h.1 1 "u1" "c1" (by decide)
  exact absurd h1 (by decide)

/-- C10: in both the chat-switch path (lines 114-115) and the teardown
path (lines 200-201 and 246-247) the forward entry is deleted purely by
the stored `(user, chat)` key, with no comparison of the stored handle
against the map's current value: if that pair meanwhile points at a
different connection `ws₂`, running teardown or a chat switch for the
old connection `ws₁` deletes `ws₂`'s forward binding. -/
theorem removal_keyed_by_pair_only (s : Registry) (ws₁ ws₂ : Nat)
    (user chat newChat : String)
    (hmeta : dlookup ws₁ s.connection_metadata = some (user, chat))
    (hfwd : dlookup chat ((dlookup user s.active_connections).getD [])
      = some ws₂)
    (hne : newChat ≠ chat) :
    dlookup chat ((dlookup user (s.unbind ws₁).active_connections).getD [])
      = none ∧
    dlookup chat
        ((dlookup user (s.rebind ws₁ newChat).active_connections).getD [])
      = none := by
  cases hl : dlookup user s.active_connections with
  | none => rw [hl] at hfwd; simp [dlookup] at hfwd
  | some inner =>
    rw [hl] at hfwd
    simp only [Option.getD] at hfwd
    have hin : (dlookup chat inner).isSome := by rw [hfwd]; rfl
    constructor
    · simp only [Registry.unbind, hmeta, hl, hin, if_true]
      by_cases hnil : derase chat inner = []
      · simp [hnil, dlookup_derase_self, dlookup]
      · simp [hnil, dlookup_dinsert_self, dlookup_derase_self]
    · have hcur : ¬ (newChat = chat) := hne
      simp only [Registry.rebind, hmeta, hcur, if_false]
      simp only [Registry.chatSwitch, hl, hin, if_true]
      simp only [dlookup_dinsert_self, Option.getD]
      rw [dlookup_dinsert_ne _ _ (Ne.symm hne), dlookup_derase_self]

/-- Witness for C10: connection 1 is superseded at `(u1, c1)` by
connection 2; tearing down connection 1 (or switching it to `c2`)
removes connection 2's forward binding. -/
theorem removal_keyed_by_pair_only_witness :
    dlookup "c1"
        ((dlookup "u1"
          (((Registry.empty.bind "u1" "c1" 1).bind "u1" "c1" 2).unbind 1).active_connections).getD [])
      = none ∧
    dlookup "c1"
        ((dlookup "u1"
          (((Registry.empty.bind "u1" "c1" 1).bind "u1" "c1" 2).rebind 1 "c2").active_connections).getD [])
      = none :=
  removal_keyed_by_pair_only ((Registry.empty.bind "u1" "c1" 1).bind "u1" "c1" 2)
    1 2 "u1" "c1" "c2" (by decide) (by decide) (by decide)

/-- Invariant I3, lookup form: no user key ever maps to an empty inner
dictionary (a user key present without any conversation). -/
def I3 (s : Registry) : Prop :=
  ∀ user : String, dlookup user s.active_connections ≠ some []

theorem I3_empty : I3 Registry.empty := by
  intro u
  simp [Registry.empty, dlookup]

theorem bind_preserves_I3 (s : Registry) (user chat : String) (ws : Nat)
    (h : I3 s) : I3 (s.bind user chat ws) := by
  intro u
  by_cases hu : u = user
  · subst hu
    rw [Registry.bind]
    simp only
    rw [dlookup_dinsert_self]
    intro heq
    exact dinsert_ne_nil chat ws _ (Option.some.inj heq)
  · rw [Registry.bind]
    simp only
    rw [dlookup_dinsert_ne _ _ hu]
    exact h u

theorem chatSwitch_preserves_I3 (s : Registry) (ws : Nat)
    (user oldChat newChat : String) (h : I3 s) :
    I3 (s.chatSwitch ws user oldChat newChat) := by
  intro u
  have hother : ∀ ac₁ : List (String × List (String × Nat)),
      u ≠ user → (ac₁ = s.active_connections ∨
        ∃ x, ac₁ = dinsert user x s.active_connections) →
      dlookup u (dinsert user (dinsert newChat ws ((dlookup user ac₁).getD []))
        ac₁) ≠ some [] := by
    intro ac₁ hu hac
    rw [dlookup_dinsert_ne _ _ hu]
    rcases hac with hac | ⟨x, hac⟩
    · rw [hac]; exact h u
    · rw [hac, dlookup_dinsert_ne _ _ hu]; exact h u
  by_cases hu : u = user
  · subst hu
    rw [Registry.chatSwitch]
    simp only
    rw [dlookup_dinsert_self]
    intro heq
    exact dinsert_ne_nil newChat ws _ (Option.some.inj heq)
  · rw [Registry.chatSwitch]
    simp only
    cases hl : dlookup user s.active_connections with
    | none => exact hother s.active_connections hu (Or.inl rfl)
    | some inner =>
        by_cases hin : (dlookup oldChat inner).isSome = true
        · simp only [hin, if_true]
          exact hother _ hu (Or.inr ⟨derase oldChat inner, rfl⟩)
        · simp only [hin, if_false]
          exact hother s.active_connections hu (Or.inl rfl)

theorem rebind_preserves_I3 (s : Registry) (ws : Nat) (newChat : String)
    (h : I3 s) : I3 (s.rebind ws newChat) := by
  rw [Registry.rebind]
  cases hm : dlookup ws s.connection_metadata with
  | none => exact h
  | some p =>
      obtain ⟨user, cur⟩ := p
      by_cases hc : newChat = cur
      · simp only [hc, if_true]
        exact h
      · simp only [hc, if_false]
        exact chatSwitch_preserves_I3 s ws user cur newChat h

theorem unbind_preserves_I3 (s : Registry) (ws : Nat) (h : I3 s) :
    I3 (s.unbind ws) := by
  rw [Registry.unbind]
  cases hm : dlookup ws s.connection_metadata with
  | none => exact h
  | some p =>
      obtain ⟨user, chat⟩ := p
      intro u
      simp only
      cases hl : dlookup user s.active_connections with
      | none => exact h u
      | some inner =>
          by_cases hin : (dlookup chat inner).isSome = true
          · simp only [hin, if_true]
            by_cases hnil : derase chat inner = []
            · simp only [hnil, if_true]
              by_cases hu : u = user
              · subst hu
                rw [dlookup_derase_self]
                intro heq
                cases heq
              · rw [dlookup_derase_ne _ hu]
                exact h u
            · simp only [hnil, if_false]
              by_cases hu : u = user
              · subst hu
                rw [dlookup_dinsert_self]
                intro heq
                exact hnil (Option.some.inj heq)
              · rw [dlookup_dinsert_ne _ _ hu]
                exact h u
          · simp only [hin, if_false]
            exact h u

theorem applyOp_preserves_I3 (s : Registry) (op : RegOp) (h : I3 s) :
    I3 (applyOp s op) := by
  cases op with
  | bind user chat ws => exact bind_preserves_I3 s user chat ws h
  | rebind ws newChat => exact rebind_preserves_I3 s ws newChat h
  | unbind ws => exact unbind_preserves_I3 s ws h

theorem foldl_preserves_I3 (ops : List RegOp) :
    ∀ s : Registry, I3 s → I3 (ops.foldl applyOp s) := by
  induction ops with
  | nil => intro s h; exact h
  | cons op t ih =>
      intro s h
      exact ih (applyOp s op) (applyOp_preserves_I3 s op h)

/-- C7: after every sequence of bind / rebind / unbind operations from
the initial module state, a user key is present in `active_connections`
iff it owns at least one conversation; in particular unbinding a user's
last conversation deletes the user key (the `if not
active_connections[stored_user_id]` cleanup), so no empty residue is
ever observable after an operation completes. -/
theorem user_key_iff_owns_chat (ops : List RegOp) (user : String) :
    dlookup user (runOps ops).active_connections ≠ some [] ∧
    ((dlookup user (runOps ops).active_connections).isSome ↔
      ∃ chat ws,
        dlookup chat ((dlookup user (runOps ops).active_connections).getD [])
          = some ws) := by
  have h3 : I3 (runOps ops) := foldl_preserves_I3 ops Registry.empty I3_empty
  refine ⟨h3 user, ?_⟩
  cases hl : dlookup user (runOps ops).active_connections with
  | none =>
      simp only [Option.isSome_none, Option.getD]
      constructor
      · intro hfalse; cases hfalse
      · rintro ⟨chat, ws, hcw⟩
        simp [dlookup] at hcw
  | some inner =>
      simp only [Option.isSome_some, Option.getD]
      constructor
      · intro _
        cases hinner : inner with
        | nil => exact absurd (hl.trans (by rw [hinner])) (h3 user)
        | cons p t =>
            refine ⟨p.1, p.2, ?_⟩
            simp [dlookup]
      · intro _
        trivial

/-- The decimal digit characters of `n`, most significant first; this is
what `Nat.toDigitsCore` produces for base 10 when given enough fuel. -/
def digitsAux (n : Nat) : List Char :=
  if n < 10 then [Nat.digitChar n]
  else digitsAux (n / 10) ++ [Nat.digitChar (n % 10)]
decreasing_by
  exact Nat.div_lt_self (by omega) (by omega)

theorem digitChar_val (d : Nat) (h : d < 10) :
    (Nat.digitChar d).toNat - 48 = d := by
  interval_cases d <;> decide

theorem digitChar_ne_underscore (d : Nat) (h : d < 10) :
    Nat.digitChar d ≠ '_' := by
  interval_cases d <;> decide

theorem toDigitsCore_eq_digitsAux :
    ∀ (fuel n : Nat) (ds : List Char), n < fuel →
      Nat.toDigitsCore 10 fuel n ds = digitsAux n ++ ds := by
  intro fuel
  induction fuel with
  | zero => intro n ds h; omega
  | succ fuel ih =>
      intro n ds h
      by_cases hz : n / 10 = 0
      · have hn : n < 10 := by omega
        rw [digitsAux]
        simp [Nat.toDigitsCore, hz, hn, Nat.mod_eq_of_lt hn]
      · have hn : ¬ n < 10 := by omega
        have hlt : n / 10 < fuel := by
          have := Nat.div_lt_self (show 0 < n by omega) (show 1 < 10 by omega)
          omega
        rw [digitsAux]
        simp only [hn, if_false]
        simp [Nat.toDigitsCore, hz, ih (n / 10) _ hlt, List.append_assoc]

theorem repr_eq_digitsAux (n : Nat) : Nat.repr n = (digitsAux n).asString := by
  show (Nat.toDigits 10 n).asString = _
  rw [Nat.toDigits, toDigitsCore_eq_digitsAux (n + 1) n [] (by omega)]
  simp

/-- Reading a most-significant-first decimal digit string back as a
number. -/
def parseDigits (l : List Char) : Nat :=
  l.foldl (fun a c => 10 * a + (c.toNat - 48)) 0

theorem parse_digitsAux (n : Nat) : parseDigits (digitsAux n) = n := by
  induction n using Nat.strong_induction_on with
  | _ n ih =>
      rw [digitsAux]
      by_cases h : n < 10
      · simp [h, parseDigits, List.foldl, digitChar_val n h]
      · have hpos : 0 < n := by omega
        have hlt : n / 10 < n := Nat.div_lt_self hpos (by omega)
        have hm : n % 10 < 10 := Nat.mod_lt n (by omega)
        simp only [h, if_false, parseDigits, List.foldl_append]
        have hpre := ih (n / 10) hlt
        rw [parseDigits] at hpre
        rw [hpre]
        simp [List.foldl, digitChar_val _ hm]
        omega

theorem digitsAux_no_underscore (n : Nat) : '_' ∉ digitsAux n := by
  induction n using Nat.strong_induction_on with
  | _ n ih =>
      rw [digitsAux]
      by_cases h : n < 10
      · simp only [h, if_true, List.mem_singleton]
        exact fun hc => digitChar_ne_underscore n h hc.symm
      · have hpos : 0 < n := by omega
        have hlt : n / 10 < n := Nat.div_lt_self hpos (by omega)
        have hm : n % 10 < 10 := Nat.mod_lt n (by omega)
        simp only [h, if_false, List.mem_append, List.mem_singleton]
        rintro (hc | hc)
        · exact ih (n / 10) hlt hc
        · exact digitChar_ne_underscore _ hm hc.symm

theorem nat_repr_inj {a b : Nat} (h : Nat.repr a = Nat.repr b) : a = b := by
  have hd : digitsAux a = digitsAux b := by
    have h2 := congrArg String.data h
    rw [repr_eq_digitsAux, repr_eq_digitsAux] at h2
    exact h2
  calc a = parseDigits (digitsAux a) := (parse_digitsAux a).symm
    _ = parseDigits (digitsAux b) := by rw [hd]
    _ = b := parse_digitsAux b

theorem sep_split :
    ∀ (a₁ a₂ b₁ b₂ : List Char), '_' ∉ b₁ → '_' ∉ b₂ →
      a₁ ++ '_' :: b₁ = a₂ ++ '_' :: b₂ → a₁ = a₂ ∧ b₁ = b₂ := by
  intro a₁
  induction a₁ with
  | nil =>
      intro a₂ b₁ b₂ h₁ h₂ h
      cases a₂ with
      | nil =>
          simp only [List.nil_append] at h
          exact ⟨rfl, (List.cons.inj h).2⟩
      | cons c t =>
          simp only [List.nil_append, List.cons_append] at h
          obtain ⟨hc, hb⟩ := List.cons.inj h
          exact absurd (hb ▸ List.mem_append_right t (List.mem_cons_self '_' b₂)) h₁
  | cons c t ih =>
      intro a₂ b₁ b₂ h₁ h₂ h
      cases a₂ with
      | nil =>
          simp only [List.nil_append, List.cons_append] at h
          obtain ⟨hc, hb⟩ := List.cons.inj h
          exact absurd (hb ▸ List.mem_append_right t (List.mem_cons_self '_' b₁)) h₂
      | cons c' t' =>
          simp only [List.cons_append] at h
          obtain ⟨hc, hb⟩ := List.cons.inj h
          obtain ⟨ht, hbb⟩ := ih t' b₁ b₂ h₁ h₂ hb
          exact ⟨by rw [hc, ht], hbb⟩

theorem toString_nat_data (n : Nat) : (toString n : String).data = digitsAux n := by
  show (Nat.repr n).data = digitsAux n
  rw [repr_eq_digitsAux]
  rfl

theorem generate_unique_chat_id_inj (u₁ u₂ : String) (t₁ t₂ : Nat)
    (r₁ r₂ : String) (hlen : r₁.length = r₂.length)
    (h : generate_unique_chat_id u₁ t₁ r₁ = generate_unique_chat_id u₂ t₂ r₂) :
    u₁ = u₂ ∧ t₁ = t₂ ∧ r₁ = r₂ := by
  have hd := congrArg String.data h
  simp only [generate_unique_chat_id, String.data_append, toString_nat_data,
    List.append_assoc] at hd
  have hre₁ : ("chat_").data ++ (u₁.data ++ (("_").data ++ (digitsAux t₁ ++
      (("_").data ++ r₁.data))))
      = ("chat_").data ++ ((u₁.data ++ '_' :: digitsAux t₁) ++ '_' :: r₁.data) := by
    simp [List.append_assoc]
  have hre₂ : ("chat_").data ++ (u₂.data ++ (("_").data ++ (digitsAux t₂ ++
      (("_").data ++ r₂.data))))
      = ("chat_").data ++ ((u₂.data ++ '_' :: digitsAux t₂) ++ '_' :: r₂.data) := by
    simp [List.append_assoc]
  rw [hre₁, hre₂] at hd
  have hd' := List.append_cancel_left hd
  have hrl : ('_' :: r₁.data).length = ('_' :: r₂.data).length := by
    have : r₁.data.length = r₂.data.length := hlen
    simp [this]
  obtain ⟨hleft, hright⟩ := List.append_inj' hd' hrl
  have hr : r₁ = r₂ := String.ext (List.cons.inj hright).2
  obtain ⟨hu, ht⟩ := sep_split u₁.data u₂.data (digitsAux t₁) (digitsAux t₂)
    (digitsAux_no_underscore t₁) (digitsAux_no_underscore t₂) hleft
  refine ⟨String.ext hu, ?_, hr⟩
  have := congrArg List.asString ht
  rw [← repr_eq_digitsAux, ← repr_eq_digitsAux] at this
  exact nat_repr_inj this

/-- The chat id produced by the `i`-th allocation call when the
environment (clock and uuid generator) hands call `i` the triple
`env i = (user, int(time.time()), str(uuid.uuid4())[:8])`. -/
def allocAt (env : Nat → String × Nat × String) (i : Nat) : String :=
  generate_unique_chat_id (env i).1 (env i).2.1 (env i).2.2

/-- C9 counterexample: distinct allocation calls are NOT guaranteed
distinct identifiers.  The random component is only the first eight
characters of a uuid4, so two calls can observe the same second and the
same truncated random string (here both calls draw
`(u1, 100, "aaaaaaaa")`), and then the two allocations coincide. -/
theorem chat_id_collision_possible :
    ¬ (∀ (env : Nat → String × Nat × String) (i j : Nat),
        i ≠ j → allocAt env i ≠ allocAt env j) :=
  fun h => h (fun _ => ("u1", 100, "aaaaaaaa")) 0 1 (by decide) rfl

/-- C9 (amended): two allocations are distinct whenever the observed
(user, timestamp, truncated-uuid) triples differ, given that the random
components have the same length (they are always exactly eight
characters): `chat_{user}_{timestamp}_{random}` is injective in the
triple because the timestamp renders to digits only (no underscore) and
the random part has fixed length.  Distinctness of the triples is the
most the code guarantees: it is not unconditional (see the collision
counterexample). -/
theorem chat_id_distinct (u₁ u₂ : String) (t₁ t₂ : Nat) (r₁ r₂ : String)
    (hlen : r₁.length = r₂.length)
    (hne : ¬ (u₁ = u₂ ∧ t₁ = t₂ ∧ r₁ = r₂)) :
    generate_unique_chat_id u₁ t₁ r₁ ≠ generate_unique_chat_id u₂ t₂ r₂ :=
  fun h => hne (generate_unique_chat_id_inj u₁ u₂ t₁ t₂ r₁ r₂ hlen h)

/-- Witness for C9 (amended): same user and random part but consecutive
seconds give distinct chat ids. -/
theorem chat_id_distinct_witness :
    generate_unique_chat_id "u1" 100 "aaaaaaaa"
      ≠ generate_unique_chat_id "u1" 101 "aaaaaaaa" :=
  chat_id_distinct "u1" "u1" 100 101 "aaaaaaaa" "aaaaaaaa" rfl (by decide)

/-- Witness for C7: a concrete operation sequence that binds two chats
for one user and unbinds one of them. -/
theorem user_key_iff_owns_chat_witness :
    dlookup "u1"
        (runOps [RegOp.bind "u1" "c1" 1, RegOp.bind "u1" "c2" 2,
          RegOp.unbind 1]).active_connections ≠ some [] :=
  (user_key_iff_owns_chat
    [RegOp.bind "u1" "c1" 1, RegOp.bind "u1" "c2" 2, RegOp.unbind 1] "u1").1
